import Mathlib

/-!
Shallow embedding of `run_experiment.py` (repository
`ryankish/wte-init-semantic-similarity`): an experiment harness that trains
two transformer language models, checkpoints them, evaluates perplexity and
persists metrics.  Pure data flow is translated into Lean functions; the
filesystem side effects are modelled as explicit traces of write events;
floating-point loss values are modelled as rationals, and `math.exp` as
`Real.exp`.
-/

namespace RunExperiment

/-! ## Filesystem write trace of `train_model`

`train_model` (lines 86-147) saves the epoch-0 embedding snapshot and
checkpoint, then for each epoch `1..opt.epochs` saves an embedding snapshot
and - only when `epoch % 10 == 0 or epoch == 1` - a checkpoint; after the
loop it writes the perplexity plot and the perplexities CSV. -/

inductive WriteEvent where
  | embedSnapshot (epoch : ℕ)
  | checkpoint (epoch : ℕ)
  | plot
  | lossCsv
deriving DecidableEq, Repr

/-- Writes performed by one iteration of the epoch loop (lines 134-137). -/
def epochWrites (epoch : ℕ) : List WriteEvent :=
  [WriteEvent.embedSnapshot epoch] ++
    (if epoch % 10 = 0 ∨ epoch = 1 then [WriteEvent.checkpoint epoch] else [])

/-- The epoch indices visited by the training loop
`for epoch in range(1, opt.epochs+1)` (line 102). -/
def train_epoch_indices (epochs : ℕ) : List ℕ := List.range' 1 epochs

/-- All file writes performed by `train_model` for one model, in program
order: epoch-0 snapshot and checkpoint (lines 93-94), the per-epoch writes,
then the plot and the CSV (lines 145-146). -/
def train_model_writes (epochs : ℕ) : List WriteEvent :=
  [WriteEvent.embedSnapshot 0, WriteEvent.checkpoint 0] ++
    (train_epoch_indices epochs).flatMap epochWrites ++
    [WriteEvent.plot, WriteEvent.lossCsv]

/-! ## Which models `experiment` trains

Lines 291-293: `model1 = train_model(...)` unconditionally, then
`if opt.experiment_id != 0: model2 = train_model(...)`. -/

/-- The model ids passed to `train_model` by `experiment`, in order. -/
def experiment_train_calls (experimentId : ℕ) : List ℕ :=
  [1] ++ (if experimentId ≠ 0 then [2] else [])

/-! ## Artifact paths

The f-strings of `save_checkpoint` (line 55), `save_embeddings` (line 65),
`save_loss` (line 41), `plot_perplexity` (line 190) and `main` (line 340). -/

def checkpoint_path (experimentId modelId epoch : ℕ) : String :=
  s!"experiments/{experimentId}/models/{modelId}/checkpoint_{epoch}.pt"

def embeddings_path (experimentId modelId epoch : ℕ) : String :=
  s!"experiments/{experimentId}/models/{modelId}/embeddings/embed_weights_epoch_{epoch}.pt"

def perplexities_path (experimentId modelId : ℕ) : String :=
  s!"experiments/{experimentId}/models/{modelId}/perplexities.csv"

def plot_path (experimentId modelId : ℕ) : String :=
  s!"experiments/{experimentId}/models/{modelId}/Model {modelId} Perplexity.png"

def log_path (experimentId : ℕ) : String :=
  s!"experiments/{experimentId}/experiment_{experimentId}.log"

/-- The path a given write event of `train_model` lands at. -/
def writePath (experimentId modelId : ℕ) : WriteEvent → String
  | WriteEvent.embedSnapshot ep => embeddings_path experimentId modelId ep
  | WriteEvent.checkpoint ep => checkpoint_path experimentId modelId ep
  | WriteEvent.plot => plot_path experimentId modelId
  | WriteEvent.lossCsv => perplexities_path experimentId modelId

/-! Spec-side layout, written from the spec's words
(`experiments/<id>/models/<model_id>/{checkpoint_<epoch>.pt,
embeddings/embed_weights_epoch_<epoch>.pt, perplexities.csv,
Model <id> Perplexity.png}` plus `experiments/<id>/experiment_<id>.log`),
to be compared against the paths built by the source. -/

def spec_checkpoint_path (e m ep : ℕ) : String :=
  "experiments/" ++ toString e ++ "/models/" ++ toString m ++
    "/checkpoint_" ++ toString ep ++ ".pt"

def spec_embeddings_path (e m ep : ℕ) : String :=
  "experiments/" ++ toString e ++ "/models/" ++ toString m ++
    "/embeddings/embed_weights_epoch_" ++ toString ep ++ ".pt"

def spec_perplexities_path (e m : ℕ) : String :=
  "experiments/" ++ toString e ++ "/models/" ++ toString m ++ "/perplexities.csv"

def spec_plot_path (e m : ℕ) : String :=
  "experiments/" ++ toString e ++ "/models/" ++ toString m ++ "/Model " ++
    toString m ++ " Perplexity.png"

def spec_log_path (e : ℕ) : String :=
  "experiments/" ++ toString e ++ "/experiment_" ++ toString e ++ ".log"

/-- A path complies with the documented per-model layout. -/
def DocumentedModelPath (e m : ℕ) (p : String) : Prop :=
  (∃ ep, p = spec_checkpoint_path e m ep) ∨
  (∃ ep, p = spec_embeddings_path e m ep) ∨
  p = spec_perplexities_path e m ∨
  p = spec_plot_path e m

/-! ## Loss accumulation and perplexity

Batch losses (the successive values of `loss.item()`) are taken as given
rational inputs; the loops of `test_model` (lines 159-174) and of the
training epoch (lines 104-122) accumulate `total_loss` and `total_batches`,
then compute `math.exp(total_loss/total_batches)`. -/

/-- The `total_loss`/`total_batches` accumulation of the batch loop in
`test_model` (lines 159-174). -/
def test_model_totals (batchLosses : List ℚ) : ℚ × ℕ :=
  batchLosses.foldl (fun acc l => (acc.1 + l, acc.2 + 1)) (0, 0)

/-- `test_model` (lines 149-177): `avg_loss = total_loss/total_batches`,
returning `math.exp(avg_loss)`.  With zero batches the division raises
`ZeroDivisionError`, modelled as `none`. -/
noncomputable def test_model (batchLosses : List ℚ) : Option ℝ :=
  let totals := test_model_totals batchLosses
  if totals.2 = 0 then none
  else some (Real.exp ((totals.1 / (totals.2 : ℚ) : ℚ) : ℝ))

/-- The `total_loss`/`total_batches` accumulation of one epoch of the
training loop in `train_model` (lines 104-122). -/
def train_epoch_totals (batchLosses : List ℚ) : ℚ × ℕ :=
  batchLosses.foldl (fun acc l => (acc.1 + l, acc.2 + 1)) (0, 0)

/-- The per-epoch train perplexity of `train_model` (lines 125-126):
`math.exp(total_loss/total_batches)`; `none` models the `ZeroDivisionError`
raised when the loader yields no batch. -/
noncomputable def train_epoch_perplexity (batchLosses : List ℚ) : Option ℝ :=
  let totals := train_epoch_totals batchLosses
  if totals.2 = 0 then none
  else some (Real.exp ((totals.1 / (totals.2 : ℚ) : ℚ) : ℝ))

/-! ## Models, state dicts and the lock-weights branch -/

/-- A framework parameter tensor: its (flattened) data and its
`requires_grad` flag. -/
structure TParam where
  value : List ℚ
  requiresGrad : Bool
deriving DecidableEq, Repr

/-- A model as the harness sees it: the list `model.parameters()` together
with the position of `model.decoder.embed.embed.weight` in that list. -/
structure TransformerModel where
  params : List TParam
  embedIdx : ℕ
deriving DecidableEq, Repr

/-- `model.decoder.embed.embed.weight` (the parameter tensor at the model's
embedding position). -/
def embedWeight (m : TransformerModel) : List ℚ :=
  (m.params.getD m.embedIdx ⟨[], true⟩).value

/-- `calculate_mse_torch` (lines 33-34): the mean of the elementwise squared
differences of two same-shape tensors. -/
def calculate_mse_torch (tensor1 tensor2 : List ℚ) : ℚ :=
  let diffsq := List.zipWith (fun a b => (a - b) ^ 2) tensor1 tensor2
  diffsq.sum / (diffsq.length : ℚ)

/-- `load_model` (lines 50-52): `model.load_state_dict(...)` copies every
parameter value from the checkpoint's state dict into the model, leaving the
`requires_grad` flags (and the architecture) unchanged. -/
def load_model (m : TransformerModel) (stateDict : List (List ℚ)) : TransformerModel :=
  { m with params := List.zipWith (fun p v => { p with value := v }) m.params stateDict }

/-- The MSE computed by the lock-weights branch of `experiment`
(lines 260-266): load the same starter state dict into both models, then
`calculate_mse_torch` on the two embedding weights. -/
def lock_weights_mse (model1 model2 : TransformerModel) (starter : List (List ℚ)) : ℚ :=
  calculate_mse_torch (embedWeight (load_model model1 starter))
    (embedWeight (load_model model2 starter))

/-- `freeze_weights` (lines 195-198): set `requires_grad = False` on every
parameter, then `True` on the embedding weight.  `set_embed_requires_grad`
is the attribute write `model.decoder.embed.embed.weight.requires_grad = True`
on the parameter list. -/
def set_embed_requires_grad : List TParam → ℕ → List TParam
  | [], _ => []
  | p :: ps, 0 => ⟨p.value, true⟩ :: ps
  | p :: ps, Nat.succ i => p :: set_embed_requires_grad ps i

def freeze_weights (m : TransformerModel) : TransformerModel :=
  { m with
    params := set_embed_requires_grad (m.params.map fun p => ⟨p.value, false⟩) m.embedIdx }

/-! ## Directory setup and clearing -/

/-- Outcome of the directory-existence branch of `experiment`
(lines 210-224): whether execution continues past the branch (`sys.exit()`
negates it), whether `clear_directory` ran, and whether the directory was
freshly created. -/
structure DirSetup where
  continues : Bool
  cleared : Bool
  created : Bool
deriving DecidableEq, Repr

/-- Python's `str.lower()`, modelled character-wise. -/
def str_lower (s : String) : String := String.mk (s.data.map Char.toLower)

/-- Lines 210-224 of `experiment`: on an existing directory prompt for a
response; `response.lower() == 'y'` clears and continues, anything else
exits; a missing directory is created. -/
def experiment_dir_setup (dirExists : Bool) (response : String) : DirSetup :=
  if dirExists then
    if str_lower response = "y" then ⟨true, true, false⟩ else ⟨false, false, false⟩
  else ⟨true, false, true⟩

/-- What `os.path.isfile`/`os.path.islink`/`os.path.isdir` report for a
directory entry; `other` is an entry none of the three tests accepts. -/
inductive EntryKind where
  | file
  | link
  | dir
  | other
deriving DecidableEq, Repr

/-- A directory entry as `clear_directory` sees it: its path, its kind, and
the outcome the filesystem gives the deletion attempt (`unlink`/`rmtree`). -/
structure DirEntry where
  path : String
  kind : EntryKind
  deleteResult : Except String Unit
deriving Repr

/-- The message of line 83. -/
def delete_failure_message (path reason : String) : String :=
  s!"Failed to delete {path}. Reason: {reason}"

/-- Result of `clear_directory`: the entries successfully removed and the
error messages logged for the failed ones. -/
structure ClearResult where
  deleted : List String
  errors : List String
deriving DecidableEq, Repr

/-- One iteration of the loop of `clear_directory` (lines 75-83): attempt
deletion (`unlink` for files and links, `rmtree` for directories, nothing for
other entries); a raised exception is caught, logged via line 83 and
swallowed. -/
def clear_directory_step (acc : ClearResult) (ent : DirEntry) : ClearResult :=
  match ent.kind with
  | EntryKind.other => acc
  | _ =>
    match ent.deleteResult with
    | Except.ok _ => { acc with deleted := acc.deleted ++ [ent.path] }
    | Except.error e =>
      { acc with errors := acc.errors ++ [delete_failure_message ent.path e] }

/-- `clear_directory` (lines 74-84): run the loop body over every listed
entry; no iteration can abort the loop. -/
def clear_directory (entries : List DirEntry) : ClearResult :=
  entries.foldl clear_directory_step ⟨[], []⟩

/-- An entry on which a deletion is attempted at all (lines 78-81). -/
def entry_attempted (ent : DirEntry) : Bool :=
  match ent.kind with
  | EntryKind.other => false
  | _ => true

/-- An attempted entry whose deletion succeeds. -/
def entry_delete_ok (ent : DirEntry) : Bool :=
  entry_attempted ent &&
    (match ent.deleteResult with
     | Except.ok _ => true
     | Except.error _ => false)

/-- The log line produced for a failing entry. -/
def entry_error_log (ent : DirEntry) : String :=
  match ent.deleteResult with
  | Except.error e => delete_failure_message ent.path e
  | Except.ok _ => ""

/-! ## The perplexity table of `save_loss` -/

/-- One row of the DataFrame `save_loss` (lines 36-42) serializes: the row
label and the three columns. -/
structure LossRow where
  epoch : ℕ
  train : Option ℚ
  valid : Option ℚ
  test : Option ℚ
deriving DecidableEq, Repr

/-- `save_loss` (lines 36-42): build a DataFrame from the two per-epoch
lists, add a `test_perplexities` column of `None`, then `df.at[test_epoch,
'test_perplexities'] = test_perplexity` - which updates the row when the
label exists and appends a new row (other columns empty) when it does not,
matching pandas setting-with-enlargement. -/
def save_loss (trains valids : List ℚ) (testPerp : ℚ) (testEpoch : ℕ) : List LossRow :=
  let base := (List.range trains.length).map fun i =>
    (⟨i, trains[i]?, valids[i]?, none⟩ : LossRow)
  if testEpoch < trains.length then
    base.map fun r => if r.epoch = testEpoch then { r with test := some testPerp } else r
  else
    base ++ [⟨testEpoch, none, none, some testPerp⟩]

/-- The table `train_model` persists (line 146): `save_loss` is called with
`test_epoch = last_epoch = opt.epochs` (line 144). -/
def train_model_loss_table (epochs : ℕ) (trains valids : List ℚ) (testPerp : ℚ) :
    List LossRow :=
  save_loss trains valids testPerp epochs

end RunExperiment

namespace RunExperiment

/-- Claim C1, counterexample: with `experiment_id = 0` the guard
`if opt.experiment_id != 0` (line 292) skips `train_model` for model 2, so
it is not the case that both models are trained regardless of the
configuration values. -/
theorem model2_not_trained_when_experiment_id_zero :
    (2 : ℕ) ∉ experiment_train_calls 0 := by decide

/-- Claim C1 (amended): `experiment` always trains model 1 for `opt.epochs`
epochs; model 2 is trained (also for `opt.epochs` epochs) if and only if
`opt.experiment_id ≠ 0`. -/
theorem experiment_train_calls_characterization (experimentId epochs : ℕ) :
    (1 : ℕ) ∈ experiment_train_calls experimentId ∧
    ((2 : ℕ) ∈ experiment_train_calls experimentId ↔ experimentId ≠ 0) ∧
    (train_epoch_indices epochs).length = epochs ∧
    (∀ e : ℕ, e ∈ train_epoch_indices epochs ↔ 1 ≤ e ∧ e ≤ epochs) := by
  refine ⟨?_, ?_, ?_, ?_⟩
  · simp [experiment_train_calls]
  · by_cases h : experimentId = 0 <;> simp [experiment_train_calls, h]
  · simp [train_epoch_indices]
  · intro e
    simp [train_epoch_indices]
    omega

/-- Claim C2, counterexample: with `opt.epochs = 2`, epoch 2 lies in
`1..opt.epochs` but no `checkpoint_2.pt` is written, because line 136 guards
`save_checkpoint` with `epoch % 10 == 0 or epoch == 1`. -/
theorem no_checkpoint_at_epoch_two :
    WriteEvent.checkpoint 2 ∉ train_model_writes 2 := by decide

/-- Membership of a checkpoint write in one epoch-loop iteration: it is
present exactly when the iteration is for that epoch and the guard of
line 136 holds. -/
theorem checkpoint_mem_epochWrites (a e : ℕ) :
    WriteEvent.checkpoint e ∈ epochWrites a ↔ a = e ∧ (e % 10 = 0 ∨ e = 1) := by
  by_cases hc : a % 10 = 0 ∨ a = 1 <;>
    simp [epochWrites, hc, eq_comm] <;> omega

/-- Membership of an embedding-snapshot write in one epoch-loop iteration. -/
theorem embed_mem_epochWrites (a e : ℕ) :
    WriteEvent.embedSnapshot e ∈ epochWrites a ↔ a = e := by
  by_cases hc : a % 10 = 0 ∨ a = 1 <;> simp [epochWrites, hc, eq_comm]

/-- Claim C2 (amended): `train_model` writes a checkpoint for epoch `e`
exactly when `e = 0` (the pre-training save at line 94) or `e` lies in
`1..opt.epochs` and satisfies the guard `e % 10 == 0 or e == 1` (line 136);
it is the embedding snapshot, not the checkpoint, that is written every
epoch. -/
theorem checkpoint_written_iff (epochs e : ℕ) :
    (WriteEvent.checkpoint e ∈ train_model_writes epochs ↔
      e = 0 ∨ (1 ≤ e ∧ e ≤ epochs ∧ (e % 10 = 0 ∨ e = 1))) ∧
    (WriteEvent.embedSnapshot e ∈ train_model_writes epochs ↔
      e = 0 ∨ (1 ≤ e ∧ e ≤ epochs)) := by
  constructor
  · simp only [train_model_writes, train_epoch_indices, List.mem_append,
      List.mem_flatMap, List.mem_range'_1, checkpoint_mem_epochWrites]
    simp [eq_comm]
    constructor
    · rintro (h | ⟨a, ⟨h1, h2⟩, rfl, hc⟩)
      · exact Or.inl h
      · exact Or.inr ⟨h1, by omega, hc⟩
    · rintro (h | ⟨h1, h2, hc⟩)
      · exact Or.inl h
      · exact Or.inr ⟨e, ⟨h1, by omega⟩, rfl, hc⟩
  · simp only [train_model_writes, train_epoch_indices, List.mem_append,
      List.mem_flatMap, List.mem_range'_1, embed_mem_epochWrites]
    simp [eq_comm]
    omega

/-- Claim C7: every artifact `train_model` persists lands at a path of the
documented layout `experiments/<id>/models/<model_id>/...`, and the log file
configured in `main` is `experiments/<id>/experiment_<id>.log`. -/
theorem artifact_paths_match_documented_layout (E M epochs : ℕ)
    (ev : WriteEvent) (hev : ev ∈ train_model_writes epochs) :
    DocumentedModelPath E M (writePath E M ev) ∧ log_path E = spec_log_path E := by
  refine ⟨?_, rfl⟩
  cases ev with
  | embedSnapshot ep => exact Or.inr (Or.inl ⟨ep, rfl⟩)
  | checkpoint ep => exact Or.inl ⟨ep, rfl⟩
  | plot => exact Or.inr (Or.inr (Or.inr rfl))
  | lossCsv => exact Or.inr (Or.inr (Or.inl rfl))

/-- Claim C7, witness: the plot write of a 2-epoch run of model 1 in
experiment 2 obeys the documented layout. -/
theorem artifact_paths_witness :
    WriteEvent.plot ∈ train_model_writes 2 ∧
    (DocumentedModelPath 2 1 (writePath 2 1 WriteEvent.plot) ∧
      log_path 2 = spec_log_path 2) :=
  ⟨by decide, artifact_paths_match_documented_layout 2 1 2 WriteEvent.plot (by decide)⟩

/-! ## Loss accumulation -/

/-- The `total_loss`/`total_batches` fold computes the sum and count of the
batch losses. -/
theorem loss_foldl_eq (ls : List ℚ) (a : ℚ) (n : ℕ) :
    ls.foldl (fun acc l => (acc.1 + l, acc.2 + 1)) (a, n) = (a + ls.sum, n + ls.length) := by
  induction ls generalizing a n with
  | nil => simp
  | cons x xs ih => simp [ih, add_assoc]; omega

theorem test_model_totals_eq (ls : List ℚ) :
    test_model_totals ls = (ls.sum, ls.length) := by
  simpa using loss_foldl_eq ls 0 0

theorem train_epoch_totals_eq (ls : List ℚ) :
    train_epoch_totals ls = (ls.sum, ls.length) := by
  simpa using loss_foldl_eq ls 0 0

/-- Claim C6: on a nonempty batch stream, both the per-epoch training metric
(lines 125-126) and `test_model` (lines 176-177) report
`exp(total_loss / total_batches)`, the exponential of the average
cross-entropy loss over the processed batches. -/
theorem perplexity_is_exp_of_mean_loss (losses : List ℚ) (h : losses ≠ []) :
    test_model losses = some (Real.exp ((losses.sum / (losses.length : ℚ) : ℚ) : ℝ)) ∧
    train_epoch_perplexity losses =
      some (Real.exp ((losses.sum / (losses.length : ℚ) : ℚ) : ℝ)) := by
  have hlen : losses.length ≠ 0 := by simpa using h
  constructor
  · simp [test_model, test_model_totals_eq, hlen]
  · simp [train_epoch_perplexity, train_epoch_totals_eq, hlen]

/-- Claim C6, witness: with the single batch loss 2, both metrics evaluate
to `exp 2`. -/
theorem perplexity_is_exp_of_mean_loss_witness :
    ([(2 : ℚ)] ≠ ([] : List ℚ)) ∧
      test_model [(2 : ℚ)] = some (Real.exp (2 : ℝ)) ∧
      train_epoch_perplexity [(2 : ℚ)] = some (Real.exp (2 : ℝ)) := by
  have h := perplexity_is_exp_of_mean_loss [(2 : ℚ)] (by simp)
  refine ⟨by simp, ?_, ?_⟩
  · rw [h.1]; norm_num
  · rw [h.2]; norm_num

/-- Claim C9: with zero batches, `avg_loss = total_loss/total_batches`
divides by `total_batches = 0` and raises (`none`); both `test_model` and the
per-epoch training computation return a perplexity exactly when the loader
yields at least one batch. -/
theorem division_by_zero_without_batches :
    test_model [] = none ∧ train_epoch_perplexity [] = none ∧
    (∀ losses : List ℚ, ((test_model losses).isSome ↔ losses ≠ []) ∧
      ((train_epoch_perplexity losses).isSome ↔ losses ≠ [])) := by
  refine ⟨by simp [test_model, test_model_totals],
    by simp [train_epoch_perplexity, train_epoch_totals], ?_⟩
  intro losses
  constructor
  · by_cases h : losses = []
    · subst h; simp [test_model, test_model_totals]
    · simp [test_model, test_model_totals_eq, h, List.length_eq_zero]
  · by_cases h : losses = []
    · subst h; simp [train_epoch_perplexity, train_epoch_totals]
    · simp [train_epoch_perplexity, train_epoch_totals_eq, h, List.length_eq_zero]

/-! ## The lock-weights assertion -/

/-- The MSE of a tensor against itself is exactly zero. -/
theorem calculate_mse_self (w : List ℚ) : calculate_mse_torch w w = 0 := by
  have hz : List.zipWith (fun a b => (a - b) ^ 2) w w = List.replicate w.length 0 := by
    induction w with
    | nil => simp
    | cons x xs ih => simp [List.replicate_succ, ih]
  simp [calculate_mse_torch, hz]

/-- Loading a state dict whose shapes match the model replaces the embedding
weight with the checkpoint's tensor at the embedding position. -/
theorem embedWeight_load_model (m : TransformerModel) (sd : List (List ℚ))
    (hlen : sd.length = m.params.length) (hidx : m.embedIdx < m.params.length) :
    embedWeight (load_model m sd) = sd.getD m.embedIdx [] := by
  unfold embedWeight load_model
  simp only [List.getD, List.get?_eq_getElem?]
  rw [List.getElem?_zipWith]
  rw [List.getElem?_eq_getElem hidx, List.getElem?_eq_getElem (by omega)]
  simp

/-- Claim C3: after loading the same starter checkpoint into both models
(lines 261-262), the embedding tensors coincide, so the MSE computed at
line 265 is exactly 0 and the assertion `assert mse == 0.0` (line 266) never
fires. -/
theorem lock_weights_assertion_holds (model1 model2 : TransformerModel)
    (starter : List (List ℚ))
    (h1 : model1.embedIdx < model1.params.length)
    (h2 : model2.embedIdx < model2.params.length)
    (harch : model1.embedIdx = model2.embedIdx)
    (hs1 : starter.length = model1.params.length)
    (hs2 : starter.length = model2.params.length) :
    lock_weights_mse model1 model2 starter = 0 := by
  unfold lock_weights_mse
  rw [embedWeight_load_model model1 starter hs1 h1,
    embedWeight_load_model model2 starter hs2 h2, harch]
  exact calculate_mse_self _

/-- Claim C3, witness: two concrete two-parameter models loaded from the
same two-tensor state dict give MSE 0. -/
theorem lock_weights_assertion_witness :
    ((⟨[⟨[1], true⟩, ⟨[2], true⟩], 1⟩ : TransformerModel).embedIdx <
        (⟨[⟨[1], true⟩, ⟨[2], true⟩], 1⟩ : TransformerModel).params.length) ∧
      lock_weights_mse ⟨[⟨[1], true⟩, ⟨[2], true⟩], 1⟩
        ⟨[⟨[5], false⟩, ⟨[6], true⟩], 1⟩ [[7], [8]] = 0 :=
  ⟨by decide, lock_weights_assertion_holds _ _ _ (by decide) (by decide) (by decide)
    (by decide) (by decide)⟩

/-! ## `freeze_weights` -/

theorem set_embed_length (ps : List TParam) (i : ℕ) :
    (set_embed_requires_grad ps i).length = ps.length := by
  induction ps generalizing i with
  | nil => simp [set_embed_requires_grad]
  | cons p ps ih =>
    cases i with
    | zero => simp [set_embed_requires_grad]
    | succ j => simp [set_embed_requires_grad, ih]

theorem set_embed_getElem? (ps : List TParam) (i j : ℕ) :
    (set_embed_requires_grad ps i)[j]? =
      if i = j then (ps[j]?).map (fun p => ⟨p.value, true⟩) else ps[j]? := by
  induction ps generalizing i j with
  | nil => simp [set_embed_requires_grad]
  | cons p ps ih =>
    cases i with
    | zero =>
      cases j with
      | zero => simp [set_embed_requires_grad]
      | succ k => simp [set_embed_requires_grad]
    | succ m =>
      cases j with
      | zero => simp [set_embed_requires_grad]
      | succ k => simpa [set_embed_requires_grad] using ih m k

/-- Claim C10: `freeze_weights` leaves the parameter list's length and every
parameter's value unchanged, sets `requires_grad = False` on every parameter
except the embedding weight, and sets it to `True` exactly there. -/
theorem freeze_weights_spec (m : TransformerModel)
    (h : m.embedIdx < m.params.length) :
    (freeze_weights m).params.length = m.params.length ∧
    (freeze_weights m).embedIdx = m.embedIdx ∧
    ((freeze_weights m).params.getD m.embedIdx ⟨[], false⟩).requiresGrad = true ∧
    (∀ i, i < m.params.length →
      ((freeze_weights m).params.getD i ⟨[], false⟩).requiresGrad
          = decide (i = m.embedIdx) ∧
      ((freeze_weights m).params.getD i ⟨[], false⟩).value
          = (m.params.getD i ⟨[], false⟩).value) := by
  have hmain : ∀ i, i < m.params.length →
      ((freeze_weights m).params.getD i ⟨[], false⟩).requiresGrad
          = decide (i = m.embedIdx) ∧
      ((freeze_weights m).params.getD i ⟨[], false⟩).value
          = (m.params.getD i ⟨[], false⟩).value := ?_
  refine ⟨by simp [freeze_weights, set_embed_length], rfl, by simpa using (hmain m.embedIdx h).1, hmain⟩
  intro i hi
  simp only [freeze_weights, List.getD, List.get?_eq_getElem?, set_embed_getElem?,
    List.getElem?_map]
  by_cases hie : m.embedIdx = i
  · subst hie
    rw [List.getElem?_eq_getElem hi]
    simp
  · rw [List.getElem?_eq_getElem hi]
    simp [Ne.symm hie, hie]

/-- Claim C10, witness: on a three-parameter model with the embedding at
position 1, the middle parameter ends `requires_grad = True` with its value
intact, its neighbour ends `False`. -/
theorem freeze_weights_spec_witness :
    ((⟨[⟨[1], true⟩, ⟨[2], false⟩, ⟨[3], true⟩], 1⟩ : TransformerModel).embedIdx <
        (⟨[⟨[1], true⟩, ⟨[2], false⟩, ⟨[3], true⟩], 1⟩ : TransformerModel).params.length) ∧
    ((freeze_weights ⟨[⟨[1], true⟩, ⟨[2], false⟩, ⟨[3], true⟩], 1⟩).params.getD 1
        ⟨[], false⟩).requiresGrad = true ∧
    ((freeze_weights ⟨[⟨[1], true⟩, ⟨[2], false⟩, ⟨[3], true⟩], 1⟩).params.getD 0
        ⟨[], false⟩).requiresGrad = false ∧
    ((freeze_weights ⟨[⟨[1], true⟩, ⟨[2], false⟩, ⟨[3], true⟩], 1⟩).params.getD 1
        ⟨[], false⟩).value = [2] := by
  have h := freeze_weights_spec ⟨[⟨[1], true⟩, ⟨[2], false⟩, ⟨[3], true⟩], 1⟩ (by decide)
  refine ⟨by decide, ?_, ?_, ?_⟩
  · simpa using (h.2.2.2 1 (by decide)).1
  · simpa using (h.2.2.2 0 (by decide)).1
  · simpa using (h.2.2.2 1 (by decide)).2

/-! ## `clear_directory` -/

theorem clear_directory_foldl (entries : List DirEntry) (acc : ClearResult) :
    entries.foldl clear_directory_step acc =
      ⟨acc.deleted ++ ((entries.filter entry_delete_ok).map fun ent => ent.path),
       acc.errors ++
         ((entries.filter fun ent => entry_attempted ent && !entry_delete_ok ent).map
           entry_error_log)⟩ := by
  induction entries generalizing acc with
  | nil => simp
  | cons ent rest ih =>
    cases hk : ent.kind <;> cases hr : ent.deleteResult <;>
      simp [clear_directory_step, entry_attempted, entry_delete_ok, entry_error_log,
        hk, hr, ih, List.filter]

/-- Claim C5: `clear_directory` is total over its entry list: the entries
whose deletion succeeds are exactly the removed ones, every attempted entry
whose deletion fails contributes exactly its `Failed to delete ...` log line,
and no failure stops the processing of later entries or escapes the
function. -/
theorem clear_directory_total_spec (entries : List DirEntry) :
    (clear_directory entries).deleted =
      ((entries.filter entry_delete_ok).map fun ent => ent.path) ∧
    (clear_directory entries).errors =
      ((entries.filter fun ent => entry_attempted ent && !entry_delete_ok ent).map
        entry_error_log) := by
  simp [clear_directory, clear_directory_foldl]

/-! ## The overwrite prompt -/

/-- Claim C4: when the experiment directory exists, a response whose
lowercasing is `y` leads to clearing the directory and continuing, and any
other response leads to `sys.exit()` with no clearing; a missing directory is
simply created. -/
theorem overwrite_prompt_spec (response : String) :
    (str_lower response = "y" →
      experiment_dir_setup true response = ⟨true, true, false⟩) ∧
    (str_lower response ≠ "y" →
      experiment_dir_setup true response = ⟨false, false, false⟩) ∧
    experiment_dir_setup false response = ⟨true, false, true⟩ := by
  refine ⟨?_, ?_, rfl⟩
  · intro h; simp [experiment_dir_setup, h]
  · intro h; simp [experiment_dir_setup, h]

/-- Claim C4, witness: the response `Y` clears and continues; the response
`no` exits without clearing. -/
theorem overwrite_prompt_spec_witness :
    (str_lower "Y" = "y" ∧ experiment_dir_setup true "Y" = ⟨true, true, false⟩) ∧
    (str_lower "no" ≠ "y" ∧ experiment_dir_setup true "no" = ⟨false, false, false⟩) :=
  ⟨⟨by decide, (overwrite_prompt_spec "Y").1 (by decide)⟩,
    ⟨by decide, (overwrite_prompt_spec "no").2.1 (by decide)⟩⟩

/-! ## The perplexity table -/

/-- Claim C8: the persisted table has, at row `i` for every completed epoch
`i+1`, that epoch's train and valid perplexities with an empty test column,
and exactly one test value, on the row labelled with the final epoch count. -/
theorem save_loss_table_shape (trains valids : List ℚ) (t : ℚ) (n : ℕ)
    (ht : trains.length = n) (hv : valids.length = n) :
    (∀ i, i < n →
      (⟨i, trains[i]?, valids[i]?, none⟩ : LossRow) ∈
        train_model_loss_table n trains valids t) ∧
    (train_model_loss_table n trains valids t).filter (fun r => r.test.isSome) =
      [⟨n, none, none, some t⟩] := by
  have hnot : ¬ (n < trains.length) := by omega
  constructor
  · intro i hi
    simp only [train_model_loss_table, save_loss, hnot, if_false]
    refine List.mem_append_left _ ?_
    exact List.mem_map.mpr ⟨i, List.mem_range.mpr (by omega), rfl⟩
  · simp only [train_model_loss_table, save_loss, hnot, if_false]
    rw [List.filter_append]
    have hbase : ((List.range trains.length).map fun i =>
        (⟨i, trains[i]?, valids[i]?, none⟩ : LossRow)).filter
          (fun r => r.test.isSome) = [] := by
      rw [List.filter_eq_nil_iff]
      intro r hr
      rcases List.mem_map.mp hr with ⟨i, _, rfl⟩
      simp
    rw [hbase]
    simp

/-- Claim C8, witness: one epoch with train perplexity 2 and valid
perplexity 3 and test perplexity 5 gives a data row at index 0 and the test
value on the enlargement row labelled 1. -/
theorem save_loss_table_shape_witness :
    (([(2 : ℚ)] : List ℚ).length = 1 ∧ ([(3 : ℚ)] : List ℚ).length = 1) ∧
    ((⟨0, [(2 : ℚ)][0]?, [(3 : ℚ)][0]?, none⟩ : LossRow) ∈
        train_model_loss_table 1 [(2 : ℚ)] [(3 : ℚ)] 5) ∧
    (train_model_loss_table 1 [(2 : ℚ)] [(3 : ℚ)] 5).filter (fun r => r.test.isSome) =
      [⟨1, none, none, some 5⟩] := by
  have h := save_loss_table_shape [(2 : ℚ)] [(3 : ℚ)] 5 1 (by decide) (by decide)
  exact ⟨⟨by decide, by decide⟩, h.1 0 (by decide), h.2⟩

end RunExperiment
